import Mathlib

/-!
A shallow embedding of the scenario_runner core — the expression engine of
src/scenario_expression/include/scenario_expression/expression.h and the
Intersection state machine of
src/entity/scenario_intersection/src/intersection.cpp — together with theorems
checking the natural-language specification's claims against the embedded code.
-/

namespace ScenarioRunner

/-- A YAML configuration node, as far as the embedded code inspects one:
scalars, null nodes, undefined nodes (what yaml-cpp lookup of an absent key
yields), sequences, and maps (ordered key/value lists; lookup of a key returns
the first matching entry). -/
inductive Node : Type where
  | scalar (s : String)
  | nullNode
  | undefNode
  | sequence (xs : List Node)
  | map (entries : List (String × Node))

/-- Observable error and side-channel events of the embedded code: the ROS
error logs of read's scalar and sequence branches, the bare ERROR! that read's
unknown-map branch prints to stdout, entry into Procedure::load together with
the ROS error it logs when no declared class matches the requested name, and a
call of a plugin's configure. Purely informational logging is not modelled. -/
inductive LogEvent : Type where
  | rosErrorScalar
  | rosErrorSequence
  | coutError
  | loadRequested (name : String)
  | rosErrorLoadFail (name : String)
  | configureCalled (name : String)

/-- The outcome of running a C++ function that should return a value: ret for
an executed return statement, undef for control falling off the end of the
function (it produces no value at all — undefined behavior in C++), exn for a
C++ exception propagating out. -/
inductive CppResult (α : Type) : Type where
  | ret (a : α)
  | undef
  | exn

/-- The variant node kinds of the scenario_expression Expression tree. nil is
the empty handle (data == nullptr); undef marks a value the C++ source never
defines (an expression obtained from a branch of read in which control falls
off the end, or the result of the body-less Expression::evaluate). Boolean is
Literal<bool> — the only Literal instantiation in the source. And and Or are
the two macro-generated n-ary logical kinds, holding their operand vectors.
Not is named in the header's grammar comment but has no implementation in the
source; it is carried here so that the evaluation rule the spec gives for it
can be stated (see not_evaluate). Predicate holds the plugin handle: the name
of the loaded plugin declaration, or none for a null handle. -/
inductive Expression : Type where
  | nil
  | undef
  | Boolean (b : Bool)
  | And (operands : List Expression)
  | Or (operands : List Expression)
  | Not (child : Expression)
  | Predicate (impl : Option String)

/-- Modelled from the spec: truthiness of an evaluated value — "is not exactly
Bool(false)"; no truthiness function exists in the inspected sources (the
header only alludes to it in its leading comment). -/
def truthy : Expression → Bool
  | Expression.Boolean false => false
  | _ => true

/-- Modelled from the spec: the evaluation rule of the Not kind, which the
header's grammar comment names but the source never implements —
Bool(!truthiness(child.evaluate())). The argument is the already evaluated
child. -/
def not_evaluate (child_value : Expression) : Expression :=
  Expression.Boolean (! truthy child_value)

/-- Node-level evaluation, the dispatch of data->evaluate() on the node's
dynamic kind. Branch provenance: Boolean is Literal::evaluate (expression.h
lines 203-206) — return *this with the by-value return type Expression
copy-constructs the Expression base subobject of the literal node, slicing
away the derived part; the node's own data pointer is null (nodes are built
by the protected tag constructor of lines 137-140), so the caller receives
the empty nil handle and the literal's value is lost. And and Or are the
macro-generated evaluate (expression.h lines 240-243), which returns
Expression::make<Boolean>(true) — a handle wrapping a fresh Boolean(true)
node — unconditionally; the operands and the compare member are never
consulted. Not delegates to the spec-modelled not_evaluate on the evaluated
child. Predicate has no evaluate override, and the nil and undef handles
likewise fall back to Expression::evaluate (expression.h lines 105-106),
whose body contains no return statement, so those three produce no defined
value (undef). -/
def evaluate : Expression → Expression
  | Expression.Boolean _ => Expression.nil
  | Expression.And _ => Expression.Boolean true
  | Expression.Or _ => Expression.Boolean true
  | Expression.Not c => not_evaluate (evaluate c)
  | Expression.Predicate _ => Expression.undef
  | Expression.nil => Expression.undef
  | Expression.undef => Expression.undef

mutual

/-- pureKinds t is true when the tree t is built only from the Literal, And,
Or and Not kinds — the side-effect-free kinds of the spec — with no Procedure
descendants and no empty or undefined handles. -/
def pureKinds : Expression → Bool
  | Expression.Boolean _ => true
  | Expression.And ops => pureKindsList ops
  | Expression.Or ops => pureKindsList ops
  | Expression.Not c => pureKinds c
  | Expression.nil => false
  | Expression.undef => false
  | Expression.Predicate _ => false

/-- pureKinds holds of every element of an operand list. -/
def pureKindsList : List Expression → Bool
  | [] => true
  | e :: es => pureKinds e && pureKindsList es

end

/-- The state of one heap-allocated Expression node under the intrusive
reference counting of expression.h, viewed per node: reference_count is the
node's data->reference_count field; handles is the number of live Expression
handles whose data pointer designates this node; deletions counts how many
times delete has been executed on the node. Expression::make produces a fresh
node with reference_count 1 held by one handle (expression.h lines 108-114
with the protected constructor of lines 137-140). -/
structure NodeState where
  reference_count : Nat
  handles : Nat
  deletions : Nat

/-- The handle operations of expression.h that touch a shared node's count:
copyConstruct is the copy constructor (lines 79-87), which copies the data
pointer and increments the count; destruct is the destructor (lines 89-96),
which decrements the count and deletes the node exactly when the decremented
count is zero; assignAway is a referencing handle being reassigned away from
the node — operator= (lines 98-103) builds a temporary copy of the right-hand
side and swaps, so the temporary's destructor performs the same
decrement-and-maybe-delete on the old node, and remake (lines 145-153)
performs it inline. -/
inductive RefOp : Type where
  | copyConstruct
  | destruct
  | assignAway

/-- The node state produced by Expression::make: count 1, one handle, never
deleted. -/
def make_state : NodeState :=
  { reference_count := 1, handles := 1, deletions := 0 }

/-- One handle operation on the shared node, from the source lines cited on
RefOp. An operation needs a live handle referencing the node (handles ≠ 0);
otherwise it is not performable on this node and the run is invalid (none).
Counting is plain non-atomic arithmetic, matching the single-threaded model. -/
def step (s : NodeState) : RefOp → Option NodeState
  | RefOp.copyConstruct =>
    if s.handles = 0 then none
    else some { reference_count := s.reference_count + 1, handles := s.handles + 1,
                deletions := s.deletions }
  | RefOp.destruct =>
    if s.handles = 0 then none
    else some { reference_count := s.reference_count - 1, handles := s.handles - 1,
                deletions := if s.reference_count - 1 = 0 then s.deletions + 1
                             else s.deletions }
  | RefOp.assignAway =>
    if s.handles = 0 then none
    else some { reference_count := s.reference_count - 1, handles := s.handles - 1,
                deletions := if s.reference_count - 1 = 0 then s.deletions + 1
                             else s.deletions }

/-- Run a sequence of handle operations on the node state. -/
def run (s : NodeState) : List RefOp → Option NodeState
  | [] => some s
  | op :: rest =>
    match step s op with
    | some s1 => run s1 rest
    | none => none

/-- Modelled from the spec: the per-state configuration payload an
Intersection transition applies. The concrete Controller type lives in
scenario_intersection/intersection.h, which is not among the inspected
sources; the spec describes one payload per state name plus a built-in Blank
payload used for any name not present in the mapping. -/
inductive Payload : Type where
  | blank
  | control (script : Node)

/-- Modelled from the spec: the Intersection fields that change_to touches.
ids_ and the state mapping change_to_ are built once by the constructor
(intersection.cpp lines 6-48) and are immutable afterwards per the spec;
current_state_ is the name of the most recently entered state. The container
type of change_to_ is declared in the missing header; it is modelled as the
association list of state-name/payload pairs the constructor emplaces. -/
structure Intersection where
  ids_ : List Nat
  change_to_ : List (String × Payload)
  current_state_ : String

/-- Modelled from the spec: payload lookup with the Blank fallback — any state
name not present in the mapping is treated as the built-in, always available
Blank state (the NOTE comment above intersection.cpp line 53 records the same
rule). -/
def lookupState (m : List (String × Payload)) (s : String) : Payload :=
  match m.find? (fun e => e.1 == s) with
  | some e => e.2
  | none => Payload.blank

/-- Intersection::change_to (intersection.cpp lines 50-54):
return change_to_[current_state_ = the_state](*simulator_); — the requested
name is assigned to current_state_ (even when the payload lookup falls back to
Blank), the payload for that name is applied via the simulator capability
(modelled as the function sim), and the capability's boolean result is
returned. -/
def change_to (self : Intersection) (sim : Payload → Bool) (the_state : String) :
    Intersection × Bool :=
  ({ self with current_state_ := the_state },
    sim (lookupState self.change_to_ the_state))

/-- A sequence of externally triggered transitions: change_to applied once per
name, in order. Transitions are the only mutating operation an Intersection
exposes (ids and update are read-only). -/
def run_change_to (self : Intersection) (sim : Payload → Bool) :
    List String → Intersection
  | [] => self
  | n :: rest => run_change_to (change_to self sim n).1 sim rest

/-- yaml-cpp truthiness of a node, as used by the code's
if (const auto n { node[key] }) tests: the boolean conversion of a node is
IsDefined(), so only an undefined node — what lookup of an absent key
yields — is falsy; a present key with a null value is defined and truthy. -/
def nodeTruthy : Node → Bool
  | Node.undefNode => false
  | _ => true

/-- node[key] followed by the truthiness test: the value of the first entry
with the given key when that value is defined; none for an absent key (a
yaml-cpp lookup miss yields an undefined node) or an undefined value. -/
def truthyGet (entries : List (String × Node)) (k : String) : Option Node :=
  match entries.find? (fun e => e.1 == k) with
  | some e => if nodeTruthy e.2 then some e.2 else none
  | none => none

/-- Procedure::load (expression.h lines 310-322): scan the declared plugin
class names for an exact match with the requested name; on a match instantiate
the plugin (the instance is modelled by the matching declaration name), and
otherwise log a ROS error identifying the requested name and yield a null
handle. The loadRequested event records that the resolver ran at all. -/
def load (decls : List String) (name : String) : Option String × List LogEvent :=
  match decls.find? (fun d => d == name) with
  | some d => (some d, [LogEvent.loadRequested name])
  | none => (none, [LogEvent.loadRequested name, LogEvent.rosErrorLoadFail name])

/-- Predicate::read (expression.h lines 333-343): with a truthy Type key the
requested name is the Type value with the fixed suffix "Condition" appended;
without one the placeholder "(type unspecified)" is requested as is. A truthy
Type whose value is not a scalar makes as<std::string> throw a yaml-cpp
conversion error (exn). -/
def Predicate_read (decls : List String) (entries : List (String × Node)) :
    CppResult (Option String) × List LogEvent :=
  match truthyGet entries "Type" with
  | some (Node.scalar s) =>
    let r' := load decls (s ++ "Condition")
    (CppResult.ret r'.1, r'.2)
  | some _ => (CppResult.exn, [])
  | none =>
    let r' := load decls "(type unspecified)"
    (CppResult.ret r'.1, r'.2)

/-- Procedure::Procedure(const YAML::Node&) (expression.h lines 281-289) as
exercised by Expression::make<Predicate>(node): the member initializer
impl { read(node) } runs while the Procedure base subobject is under
construction — the Predicate constructor is the inherited
using Procedure::Procedure — and a virtual call made during base-class
construction dispatches to the constructor's own class. It therefore invokes
Procedure::read (expression.h lines 291-294), which returns a null handle
without consulting the loader, not the Predicate::read override. Consequently
impl is null, no name is resolved, nothing is logged, and the
if (impl) impl->configure(node, api) branch is not taken. Construction
executes no throwing operation and completes normally. -/
def Procedure_construct (_entries : List (String × Node)) :
    CppResult Expression × List LogEvent :=
  (CppResult.ret (Expression.Predicate none), [])

/-- operands.push_back of one element under an n-ary constructor, threaded
through the CppResult of the remaining loop. -/
def pushOperand (e : Expression) : CppResult (List Expression) →
    CppResult (List Expression)
  | CppResult.ret es => CppResult.ret (e :: es)
  | CppResult.undef => CppResult.undef
  | CppResult.exn => CppResult.exn

/-- The operand-collecting loop of the macro-generated And/Or constructor
(expression.h lines 225-236): each child of the sequence is read in order and
pushed onto operands. A child read from which an exception propagates aborts
the loop (later siblings are not read and their logs do not occur); a child
read in which control fell off the end contributes an indeterminate value,
modelled by the undef expression. -/
def collectOps : List (CppResult Expression × List LogEvent) →
    CppResult (List Expression) × List LogEvent
  | [] => (CppResult.ret [], [])
  | (res, lg) :: rest =>
    match res with
    | CppResult.exn => (CppResult.exn, lg)
    | CppResult.undef =>
      let r' := collectOps rest
      (pushOperand Expression.undef r'.1, lg ++ r'.2)
    | CppResult.ret e =>
      let r' := collectOps rest
      (pushOperand e r'.1, lg ++ r'.2)

/-- Wrap collected operands in the n-ary logical constructor, propagating an
exception escaping the constructor out of Expression::make. -/
def mkNary (mk : List Expression → Expression) :
    CppResult (List Expression) × List LogEvent →
    CppResult Expression × List LogEvent
  | (CppResult.ret es, lg) => (CppResult.ret (mk es), lg)
  | (CppResult.undef, lg) => (CppResult.undef, lg)
  | (CppResult.exn, lg) => (CppResult.exn, lg)

/-- scenario_expression::read (expression.h lines 355-396), branch by branch:
a scalar node logs a ROS error and control falls off the end of the function
(no return statement executes: undef); a sequence node likewise; a map node is
dispatched on the first truthy key among All, Any, Type in that order — All
builds an And over the key's sequence (the macro constructor reads each child
of a sequence value and collects nothing from a non-sequence value), Any
builds an Or the same way, and Type with a truthy Params alongside is the
commented-out action branch whose empty body lets control fall off the end
(undef, nothing logged), while Type without Params returns
Expression::make<Predicate>(node) — see Procedure_construct; a map with none
of the three keys prints ERROR! to stdout and control falls off the end; any
other node (null or undefined) returns the empty Expression handle. -/
def read (n : Node) : CppResult Expression × List LogEvent :=
  match n with
  | Node.scalar _ => (CppResult.undef, [LogEvent.rosErrorScalar])
  | Node.sequence _ => (CppResult.undef, [LogEvent.rosErrorSequence])
  | Node.nullNode => (CppResult.ret Expression.nil, [])
  | Node.undefNode => (CppResult.ret Expression.nil, [])
  | Node.map entries =>
    match hA : truthyGet entries "All" with
    | some (Node.sequence xs) =>
      mkNary Expression.And (collectOps (xs.attach.map (fun a => read a.1)))
    | some _ => (CppResult.ret (Expression.And []), [])
    | none =>
      match hO : truthyGet entries "Any" with
      | some (Node.sequence xs) =>
        mkNary Expression.Or (collectOps (xs.attach.map (fun a => read a.1)))
      | some _ => (CppResult.ret (Expression.Or []), [])
      | none =>
        match truthyGet entries "Type" with
        | some _ =>
          match truthyGet entries "Params" with
          | some _ => (CppResult.undef, [])
          | none => Procedure_construct entries
        | none => (CppResult.undef, [LogEvent.coutError])
termination_by sizeOf n
decreasing_by
  all_goals
    simp_wf
    first
    | have hkey : truthyGet entries "Any" = some (Node.sequence xs) := hO
    | have hkey : truthyGet entries "All" = some (Node.sequence xs) := hA
    have hxa : sizeOf a.1 < sizeOf xs := List.sizeOf_lt_of_mem a.2
    unfold truthyGet at hkey
    split at hkey
    next e heq =>
      split at hkey
      next =>
        injection hkey with hkey
        have he : e ∈ entries := List.mem_of_find?_eq_some heq
        have h2 : sizeOf e < sizeOf entries := List.sizeOf_lt_of_mem he
        obtain ⟨k1, v1⟩ := e
        simp only [Prod.mk.sizeOf_spec] at h2
        subst hkey
        simp only [Node.sequence.sizeOf_spec] at h2
        omega
      next => cases hkey
    next => cases hkey

/-- A concrete intersection used by witnesses: one controlled light, one
configured state Go, current state Blank. -/
def sampleIntersection : Intersection :=
  Intersection.mk [1] [("Go", Payload.control Node.nullNode)] "Blank"

/-- A simulator capability that accepts every payload. -/
def acceptAll : Payload → Bool := fun _ => true

/-- C1: the claim states the And/Or truth tables — And([]) true, Or([]) false,
And([true,true,false]) false, Or([false,false,true]) true, with the general
iff. In the source, the macro-generated And::evaluate and Or::evaluate return
Expression::make<Boolean>(true) unconditionally — the operand vector and the
compare member (a std::logical_and / std::logical_or object that is never
used) are ignored — so Or([]) and And([true,true,false]) both evaluate to
Bool(true), contradicting the claimed tables: the code, not the claim, is at
fault. This theorem evaluates the embedded code at the failing inputs. -/
theorem C1_and_or_evaluate_stub :
    evaluate (Expression.Or []) = Expression.Boolean true ∧
    evaluate (Expression.And
        [Expression.Boolean true, Expression.Boolean true,
         Expression.Boolean false]) =
      Expression.Boolean true :=
  ⟨rfl, rfl⟩

/-- C2: for every state name s — key of the states mapping or not — change_to
records the requested name s in current_state_, applies the payload mapped to
s (the built-in Blank payload when s is absent) through the simulator
capability, and returns the capability's boolean result. -/
theorem C2_change_to_requested_name (self : Intersection) (sim : Payload → Bool)
    (s : String) :
    (change_to self sim s).1.current_state_ = s ∧
    (change_to self sim s).2 = sim (lookupState self.change_to_ s) ∧
    (self.change_to_.find? (fun e => e.1 == s) = none →
      (change_to self sim s).2 = sim Payload.blank) := by
  refine ⟨rfl, rfl, fun h => ?_⟩
  simp [change_to, lookupState, h]

/-- C2 witness: on a concrete intersection whose only configured state is Go,
with an accepting simulator, change_to with the unconfigured name
NameNotInControl records that very name, applies Blank, and succeeds. -/
theorem C2_change_to_requested_name_witness :
    (change_to sampleIntersection acceptAll "NameNotInControl").1.current_state_ =
      "NameNotInControl" ∧
    (change_to sampleIntersection acceptAll "NameNotInControl").2 =
      acceptAll (lookupState sampleIntersection.change_to_ "NameNotInControl") ∧
    (sampleIntersection.change_to_.find? (fun e => e.1 == "NameNotInControl") = none →
      (change_to sampleIntersection acceptAll "NameNotInControl").2 =
        acceptAll Payload.blank) :=
  C2_change_to_requested_name sampleIntersection acceptAll "NameNotInControl"

/-- Auxiliary invariant preservation for the reference-counting model: a node
state whose count equals its number of referencing handles, and which has been
deleted exactly once if and only if no handle is left, keeps that shape under
any successful run of handle operations. -/
theorem run_counted (ops : List RefOp) :
    ∀ s s' : NodeState,
      s.reference_count = s.handles →
      s.deletions = (if s.handles = 0 then 1 else 0) →
      run s ops = some s' →
      s'.reference_count = s'.handles ∧
        s'.deletions = (if s'.handles = 0 then 1 else 0) := by
  induction ops with
  | nil =>
    intro s s' h1 h2 h3
    obtain rfl : s = s' := by simpa [run] using h3
    exact ⟨h1, h2⟩
  | cons op rest ih =>
    intro s s' h1 h2 h3
    obtain ⟨rc, hd, dl⟩ := s
    simp only at h1 h2
    subst h1
    by_cases hz : rc = 0
    · subst hz
      cases op <;> simp [run, step] at h3
    · have hdl : dl = 0 := by simpa [hz] using h2
      subst hdl
      cases op with
      | copyConstruct =>
        simp only [run, step] at h3
        rw [if_neg hz] at h3
        exact ih _ s' rfl (by simp) h3
      | destruct =>
        simp only [run, step] at h3
        rw [if_neg hz] at h3
        refine ih _ s' rfl ?_ h3
        by_cases hz1 : rc - 1 = 0 <;> simp [hz1]
      | assignAway =>
        simp only [run, step] at h3
        rw [if_neg hz] at h3
        refine ih _ s' rfl ?_ h3
        by_cases hz1 : rc - 1 = 0 <;> simp [hz1]

/-- C3: starting from the state Expression::make establishes (count 1, one
referencing handle, not deleted), every valid sequence of copy-construction,
destruction and reassign-away operations keeps the node's reference count
equal to the number of live referencing handles, and the node has been deleted
exactly once exactly when no referencing handle remains — never twice (no
double free) and never zero times once the last handle is gone (no leak).
Copying increments the count and destruction decrements it by the very
definition of step, taken from the copy constructor and destructor. -/
theorem C3_reference_counting (ops : List RefOp) (s : NodeState)
    (h : run make_state ops = some s) :
    s.reference_count = s.handles ∧
    s.deletions = (if s.handles = 0 then 1 else 0) ∧
    s.deletions ≤ 1 := by
  have h' := run_counted ops make_state s rfl rfl h
  refine ⟨h'.1, h'.2, ?_⟩
  rw [h'.2]
  split <;> omega

/-- C3 witness: the run make; copy; destroy; destroy ends with count 0, no
handles, and exactly one deletion. -/
theorem C3_reference_counting_witness :
    (NodeState.mk 0 0 1).reference_count = (NodeState.mk 0 0 1).handles ∧
    (NodeState.mk 0 0 1).deletions =
      (if (NodeState.mk 0 0 1).handles = 0 then 1 else 0) ∧
    (NodeState.mk 0 0 1).deletions ≤ 1 :=
  C3_reference_counting [RefOp.copyConstruct, RefOp.destruct, RefOp.destruct]
    (NodeState.mk 0 0 1) rfl

/-- C4: the claim's All → And, Any → Or priority and its Predicate case match
the source, but its Action case does not: a map whose Type key is accompanied
by a Params key reaches the commented-out action branch of read, whose empty
body lets control fall off the end of the function — no Action value is built
(no Action kind exists anywhere in the source) and read produces no value at
all. This theorem evaluates the embedded read at such an input. -/
theorem C4_action_branch_unimplemented :
    read (Node.map [("Type", Node.scalar "ChangeLane"),
      ("Params", Node.scalar "1")]) =
      (CppResult.undef, []) := by
  unfold read; rfl

/-- C5: the claim says failed Predicate resolution reports an error naming
<Type>Condition during construction. In the source, the virtual read call in
the Procedure constructor's member initializer dispatches — per the C++ rule
for virtual calls during base-class construction, the Predicate constructor
being the inherited using Procedure::Procedure — to Procedure::read, so
constructing a Predicate never reaches Predicate::read or Procedure::load:
construction yields a null handle silently (no registry scan, no error) and
configure is not invoked. The Predicate::read override itself, had it been
called with Type NoSuchThing against a registry holding only
AlwaysTrueCondition, would request exactly NoSuchThingCondition and log the
failure naming it. The first conjunct evaluates the silent construction at
the failing input; the second evaluates the never-reached override behavior
that the claim describes. -/
theorem C5_construction_silently_null :
    Procedure_construct [("Type", Node.scalar "NoSuchThing")] =
      (CppResult.ret (Expression.Predicate none), []) ∧
    Predicate_read ["AlwaysTrueCondition"] [("Type", Node.scalar "NoSuchThing")] =
      (CppResult.ret none,
        [LogEvent.loadRequested "NoSuchThingCondition",
         LogEvent.rosErrorLoadFail "NoSuchThingCondition"]) :=
  ⟨rfl, rfl⟩

/-- C6: the claim says a map with none of the All/Any/Type keys makes read
raise an UnrecognizedExpressionError. The source has no such error type
anywhere: the final map branch of read prints a bare ERROR! to stdout and
control falls off the end of the function — nothing is raised and no value
(null, empty or otherwise) is returned. This theorem evaluates the embedded
read at the claim's example input. -/
theorem C6_unknown_map_not_raised :
    read (Node.map [("Foo", Node.scalar "1")]) =
      (CppResult.undef, [LogEvent.coutError]) := by
  unfold read; rfl

/-- C7: a scalar node and a bare sequence node at the top of read each log a
diagnosable ROS error naming the node, and read produces no value at all for
them — in particular it does not silently yield the empty (nil) Expression:
the event list is the non-empty error log and the outcome carries no returned
value. -/
theorem C7_scalar_sequence_rejected (s : String) (xs : List Node) :
    read (Node.scalar s) = (CppResult.undef, [LogEvent.rosErrorScalar]) ∧
    read (Node.sequence xs) = (CppResult.undef, [LogEvent.rosErrorSequence]) := by
  constructor <;> (unfold read; rfl)

/-- C8: the states mapping and the id list of an Intersection are unchanged by
every sequence of change_to transitions, whatever the state names;
current_state_ is the only field change_to rewrites. -/
theorem C8_states_immutable (self : Intersection) (sim : Payload → Bool)
    (names : List String) :
    (run_change_to self sim names).change_to_ = self.change_to_ ∧
    (run_change_to self sim names).ids_ = self.ids_ := by
  induction names generalizing self with
  | nil => exact ⟨rfl, rfl⟩
  | cons n rest ih =>
    have h := ih (change_to self sim n).1
    simpa [run_change_to, change_to] using h

/-- C9: the claim says evaluation of trees built only from the pure kinds
(Literal, And, Or, Not; no Procedure descendants) is idempotent. The code
breaks this for every pure tree: Literal::evaluate returns *this by value with
return type Expression, slicing the literal into its base subobject whose data
pointer is null, so a Literal leaf evaluates to the empty nil handle rather
than to itself, and the Boolean(true) handle that And([]) evaluates to becomes
nil when evaluated again instead of reproducing itself. This theorem evaluates
the embedded code at the failing input: And([]) is a pure tree, it evaluates
to Bool(true), evaluating that result yields the nil handle, and nil differs
from Bool(true); a bare Boolean leaf likewise fails to evaluate to itself. -/
theorem C9_evaluation_not_idempotent :
    pureKinds (Expression.And []) = true ∧
    evaluate (Expression.And []) = Expression.Boolean true ∧
    evaluate (evaluate (Expression.And [])) = Expression.nil ∧
    Expression.nil ≠ Expression.Boolean true ∧
    evaluate (Expression.Boolean true) = Expression.nil :=
  ⟨rfl, rfl, rfl, fun h => Expression.noConfusion h, rfl⟩

/-- C10 counterexample: constructing a Predicate from the Type-less map
(Foo: 1) produces no loadRequested event at all — the resolver is never
invoked, with the placeholder name (type unspecified) or any other name,
because the virtual read call in the Procedure constructor dispatches to
Procedure::read during base-class construction. This refutes the claim's
assertion that the resolver is invoked with the placeholder name. -/
theorem C10_resolver_never_invoked :
    LogEvent.loadRequested "(type unspecified)" ∉
      (Procedure_construct [("Foo", Node.scalar "1")]).2 := by
  simp [Procedure_construct]

/-- C10 amended: for every configuration map node lacking a truthy Type key,
constructing a Predicate from it does not throw; the in-constructor virtual
read call resolves to the base Procedure::read, so the resolver is never
invoked, the resulting Procedure holds a null plugin handle, and the plugin's
configure is never invoked — construction returns normally with an empty
event list. -/
theorem C10_no_type_construction (entries : List (String × Node))
    (h : truthyGet entries "Type" = none) :
    Procedure_construct entries = (CppResult.ret (Expression.Predicate none), []) :=
  rfl

/-- C10 witness: the amended statement at a concrete Type-less map. -/
theorem C10_no_type_construction_witness :
    truthyGet [("Name", Node.scalar "n")] "Type" = none ∧
    Procedure_construct [("Name", Node.scalar "n")] =
      (CppResult.ret (Expression.Predicate none), []) :=
  ⟨rfl, C10_no_type_construction [("Name", Node.scalar "n")] rfl⟩

end ScenarioRunner
